import Mathlib

/-!
Shallow embedding of the ValutaTrade Hub core (portfolio ledger and
exchange-rate update pipeline) together with theorems settling the
specification claims.  Python `float` balances and rates are modelled as
exact rationals; Python exceptions are modelled by an explicit error type
threaded through `Except`; the mutable persisted stores are modelled by
explicit state passing, where the state survives a raised exception
exactly as the Python document store does.
-/

namespace ValutatradeHub

deriving instance DecidableEq for Except

/-- Python exceptions raised by the core.
`valueError` models `ValueError(msg)`; `insufficientFunds` models
`InsufficientFundsError(currency_code, available, required)`;
`currencyNotFound` models `CurrencyNotFoundError(code)`; `apiRequestError`
models `ApiRequestError(reason)`; `attributeError` models the `AttributeError`
Python would raise on a method call on `None` (unreachable paths). -/
inductive PyError where
  | valueError (msg : String)
  | insufficientFunds (currency_code : String) (available required : ℚ)
  | currencyNotFound (code : String)
  | apiRequestError (reason : String)
  | attributeError
  deriving DecidableEq

/-- Matches `except ApiRequestError` in `run_update`. -/
def PyError.isApiRequestError : PyError → Bool
  | .apiRequestError _ => true
  | _ => false

/-- Whether a fetch outcome is a normal return. -/
def exceptIsOk {ε α : Type} : Except ε α → Bool
  | .ok _ => true
  | .error _ => false

/-- Python `dict` lookup (`d.get(k)` / `k in d`), on insertion-ordered pairs. -/
def dictGet {α : Type} : List (String × α) → String → Option α
  | [], _ => none
  | (k', v) :: rest, k => if k' = k then some v else dictGet rest k

/-- Python `dict` item assignment `d[k] = v`: replaces the value of an
existing key in place, otherwise appends the new key. -/
def dictInsert {α : Type} : List (String × α) → String → α → List (String × α)
  | [], k, v => [(k, v)]
  | (k', v') :: rest, k, v =>
    if k' = k then (k', v) :: rest else (k', v') :: dictInsert rest k v

/-- ASCII uppercasing of one character, as Python `str.upper` acts on the
ASCII code points that currency codes are made of. -/
def upperChar (c : Char) : Char :=
  if 97 ≤ c.toNat ∧ c.toNat ≤ 122 then Char.ofNat (c.toNat - 32) else c

/-- Python `s.upper()` restricted to ASCII strings. -/
def upperString (s : String) : String :=
  ⟨s.data.map upperChar⟩

/-- `Wallet` from `core/models.py`: a currency code and a balance.
The Python `_balance` field is the `balance` field here. -/
structure Wallet where
  currency_code : String
  balance : ℚ
  deriving DecidableEq

/-- `Wallet.__init__`: assigns `_balance` directly — no validation runs. -/
def Wallet.init (currency_code : String) (balance : ℚ) : Wallet :=
  { currency_code := currency_code, balance := balance }

/-- The `balance` property setter: rejects a negative value with
`ValueError`, otherwise stores it.  (The `isinstance` numeric-type check is
discharged by the embedding's types.) -/
def Wallet.setBalance (w : Wallet) (value : ℚ) : Except PyError Wallet :=
  if value < 0 then .error (.valueError "Баланс не может быть отрицательным")
  else .ok { w with balance := value }

/-- `Wallet.deposit`: rejects a non-positive amount, then goes through the
balance setter (`self.balance += amount`). -/
def Wallet.deposit (w : Wallet) (amount : ℚ) : Except PyError Wallet :=
  if amount ≤ 0 then .error (.valueError "Сумма пополнения должна быть положительной")
  else w.setBalance (w.balance + amount)

/-- `Wallet.withdraw`: rejects a non-positive amount; when
`amount > balance` the source prints `"error"` (no state effect) and then
still executes `self.balance -= amount`, so the overdraft is stopped only
by the setter's negativity check, which raises `ValueError`. -/
def Wallet.withdraw (w : Wallet) (amount : ℚ) : Except PyError Wallet :=
  if amount ≤ 0 then .error (.valueError "Сумма снятия должна быть положительной")
  else w.setBalance (w.balance - amount)

/-- `Wallet.from_dict`: passes the stored fields straight to `__init__`. -/
def Wallet.from_dict (currency_code : String) (balance : ℚ) : Wallet :=
  Wallet.init currency_code balance

/-- `Portfolio` from `core/models.py`: a user id and an insertion-ordered
mapping of currency code to wallet. -/
structure Portfolio where
  user_id : Int
  wallets : List (String × Wallet)
  deriving DecidableEq

/-- `Portfolio.get_wallet`: uppercases the code and looks it up. -/
def Portfolio.get_wallet (p : Portfolio) (currency_code : String) : Option Wallet :=
  dictGet p.wallets (upperString currency_code)

/-- `Portfolio.add_currency`: uppercases the code, refuses a duplicate
wallet, otherwise adds a zero-balance wallet for that code. -/
def Portfolio.add_currency (p : Portfolio) (currency_code : String) :
    Except PyError Portfolio :=
  let code := upperString currency_code
  if (dictGet p.wallets code).isSome then
    .error (.valueError ("Кошелек для валюты " ++ code ++ " уже существует"))
  else
    .ok { p with wallets := dictInsert p.wallets code (Wallet.init code 0) }

/-- The hard-coded demo rates inside `Portfolio.get_total_value`. -/
def demo_rates : List (String × ℚ) :=
  [("BTC_USD", 59337.21), ("EUR_USD", 1.0786),
   ("RUB_USD", 0.01016), ("ETH_USD", 3720.00)]

/-- The loop body of `Portfolio.get_total_value` for one wallet entry.
The `exchange_rates` argument maps a pair key to its rate (the source reads
`exchange_rates[rate_key]["rate"]`; the surrounding record is elided). -/
def walletContribution (base_currency : String) (exchange_rates : List (String × ℚ))
    (currency_code : String) (wallet : Wallet) : ℚ :=
  if currency_code = base_currency then wallet.balance
  else
    match dictGet exchange_rates (currency_code ++ "_" ++ base_currency) with
    | some rate => wallet.balance * rate
    | none =>
      match dictGet demo_rates (currency_code ++ "_" ++ base_currency) with
      | some rate => wallet.balance * rate
      | none => 0

/-- `Portfolio.get_total_value`: accumulates each wallet's contribution. -/
def Portfolio.get_total_value (p : Portfolio) (base_currency : String)
    (exchange_rates : List (String × ℚ)) : ℚ :=
  p.wallets.foldl
    (fun total cw => total + walletContribution base_currency exchange_rates cw.1 cw.2) 0

/-- Modelled from the spec: the persistence collaborator for the
"portfolios" document (`core/utils.py` `DataManager`, not under `src/`) —
an opaque store supporting load-with-default and whole-document save
(spec sections 4.5 and 6).  The document is the list of portfolio records
kept in `portfolios.json`. -/
abbrev PortfolioStore := List Portfolio

/-- The lookup loop shared by `get_user_portfolio` and `_save_portfolio`:
first portfolio record whose `user_id` matches. -/
def findPortfolio : PortfolioStore → Int → Option Portfolio
  | [], _ => none
  | p :: rest, user_id =>
    if p.user_id = user_id then some p else findPortfolio rest user_id

/-- `PortfolioManager._save_portfolio`: replaces the first record with the
same `user_id`, else appends the record. -/
def save_portfolio : PortfolioStore → Portfolio → PortfolioStore
  | [], portfolio => [portfolio]
  | p :: rest, portfolio =>
    if p.user_id = portfolio.user_id then portfolio :: rest
    else p :: save_portfolio rest portfolio

/-- `PortfolioManager.get_user_portfolio`: returns the stored portfolio,
or creates an empty one, saves it, and returns it.  The possibly-updated
store is returned alongside. -/
def get_user_portfolio (store : PortfolioStore) (user_id : Int) :
    Portfolio × PortfolioStore :=
  match findPortfolio store user_id with
  | some p => (p, store)
  | none =>
    let p : Portfolio := { user_id := user_id, wallets := [] }
    (p, save_portfolio store p)

/-- Modelled from the spec: `validate_amount` from the missing
`core/utils.py`; the spec gives the precondition `amount > 0`
(else the operation fails with InvalidAmount). -/
def validate_amount (amount : ℚ) : Bool :=
  amount > 0

/-- The result dict returned by `buy_currency`. -/
structure BuyResult where
  currency : String
  amount : ℚ
  rate : Option ℚ
  estimated_cost : Option ℚ
  old_balance : ℚ
  new_balance : ℚ
  deriving DecidableEq

/-- The result dict returned by `sell_currency`. -/
structure SellResult where
  currency : String
  amount : ℚ
  rate : Option ℚ
  estimated_revenue : Option ℚ
  old_balance : ℚ
  new_balance : ℚ
  deriving DecidableEq

/-- `PortfolioManager.buy_currency`.  `rate_service` abstracts
`self.rate_service.get_rate` (from the missing `core/utils.py`,
modelled from spec section 4.4 as a partial rate lookup).  The store is
threaded explicitly; on a raised exception the store reached so far is
returned, as with the Python document store.  In the source
`estimated_cost` is initialised to `None` and never assigned again. -/
def buy_currency (rate_service : String → String → Option ℚ)
    (store : PortfolioStore) (user_id : Int) (currency_code : String)
    (amount : ℚ) : Except PyError BuyResult × PortfolioStore :=
  if !validate_amount amount then
    (.error (.valueError "Сумма должна быть положительной"), store)
  else
    let (portfolio, store) := get_user_portfolio store user_id
    let code := upperString currency_code
    match (if (dictGet portfolio.wallets code).isNone
           then portfolio.add_currency code else .ok portfolio) with
    | .error e => (.error e, store)
    | .ok portfolio =>
      match portfolio.get_wallet code with
      | none => (.error .attributeError, store)
      | some wallet =>
        let old_balance := wallet.balance
        match wallet.deposit amount with
        | .error e => (.error e, store)
        | .ok wallet =>
          let portfolio := { portfolio with
                             wallets := dictInsert portfolio.wallets code wallet }
          let store := save_portfolio store portfolio
          let rate := rate_service code "USD"
          let estimated_cost : Option ℚ := none
          (.ok { currency := code, amount := amount, rate := rate,
                 estimated_cost := estimated_cost,
                 old_balance := old_balance, new_balance := wallet.balance },
           store)

/-- `PortfolioManager.sell_currency`.  The revenue estimate is guarded by
Python truthiness (`if rate:`), so a rate of `0` also leaves it `None`. -/
def sell_currency (rate_service : String → String → Option ℚ)
    (store : PortfolioStore) (user_id : Int) (currency_code : String)
    (amount : ℚ) : Except PyError SellResult × PortfolioStore :=
  if !validate_amount amount then
    (.error (.valueError "Сумма должна быть положительной"), store)
  else
    let (portfolio, store) := get_user_portfolio store user_id
    let code := upperString currency_code
    match portfolio.get_wallet code with
    | none => (.error (.valueError ("У вас нет кошелька для валюты " ++ code)), store)
    | some wallet =>
      let old_balance := wallet.balance
      match wallet.withdraw amount with
      | .error e => (.error e, store)
      | .ok wallet =>
        let portfolio := { portfolio with
                           wallets := dictInsert portfolio.wallets code wallet }
        let store := save_portfolio store portfolio
        let rate := rate_service code "USD"
        let estimated_revenue : Option ℚ :=
          match rate with
          | some r => if r = 0 then none else some (amount * r)
          | none => none
        (.ok { currency := code, amount := amount, rate := rate,
               estimated_revenue := estimated_revenue,
               old_balance := old_balance, new_balance := wallet.balance },
         store)

/-- The codes registered by `_initialize_currencies` in
`core/currencies.py` (5 fiat + 4 crypto).  The registry entry payloads
(names, countries, algorithms) play no role in any claim, so the registry
is modelled by its key set. -/
def currencyRegistry : List String :=
  ["USD", "EUR", "RUB", "GBP", "JPY", "BTC", "ETH", "LTC", "ADA"]

/-- `get_currency` from `core/currencies.py`: uppercases the code and
raises `CurrencyNotFoundError` when it is not registered. -/
def get_currency (code : String) : Except PyError String :=
  let code := upperString code
  if code ∈ currencyRegistry then .ok code
  else .error (.currencyNotFound code)

/-- Balance observed for a user and currency code through the persisted
store: the wallet's balance, or `0` when the portfolio or wallet is
absent. -/
def walletBalance (store : PortfolioStore) (user_id : Int) (code : String) : ℚ :=
  match findPortfolio store user_id with
  | none => 0
  | some p =>
    match p.get_wallet code with
    | none => 0
    | some w => w.balance

/-- A pair-to-rate mapping as returned by a provider and accumulated by
`run_update`. -/
abbrev Rates := List (String × ℚ)

/-- Python `d.update(other)`: item assignment for each entry in order. -/
def dictUpdate (d : Rates) (entries : Rates) : Rates :=
  entries.foldl (fun acc kv => dictInsert acc kv.1 kv.2) d

/-- One append-only history entry written by
`RatesStorage.save_historical_record` (the constant request metadata is
elided). -/
structure HistoryRecord where
  from_currency : String
  to_currency : String
  rate : ℚ
  source : String
  deriving DecidableEq

/-- Modelled from the spec: `RatesStorage` from the missing
`parser_service/storage.py`, per spec section 4.3 — a durable current
snapshot replaced wholesale by `save_current_rates`, and an append-only
history extended by `save_historical_record`. -/
structure RatesStorage where
  current : Option (Rates × String)
  history : List HistoryRecord
  deriving DecidableEq

/-- Modelled from the spec: `save_current_rates` atomically replaces the
current snapshot, tagged with the origin label. -/
def RatesStorage.save_current_rates (s : RatesStorage) (rates : Rates)
    (origin : String) : RatesStorage :=
  { s with current := some (rates, origin) }

/-- Modelled from the spec: `save_historical_record` appends one immutable
record in insertion order. -/
def RatesStorage.save_historical_record (s : RatesStorage)
    (from_currency to_currency : String) (rate : ℚ) (source : String) :
    RatesStorage :=
  { s with history :=
      s.history ++ [{ from_currency := from_currency, to_currency := to_currency,
                      rate := rate, source := source }] }

/-- Splitting a character list at every underscore, as Python
`pair.split('_')`. -/
def splitOnUnderscore : List Char → List (List Char)
  | [] => [[]]
  | c :: rest =>
    if c = '_' then [] :: splitOnUnderscore rest
    else
      match splitOnUnderscore rest with
      | [] => [[c]]
      | part :: parts => (c :: part) :: parts

/-- `from_currency, to_currency = pair.split('_')`: the unpacking raises
`ValueError` unless the split has exactly two parts. -/
def splitPair (pair : String) : Except PyError (String × String) :=
  match splitOnUnderscore pair.data with
  | [a, b] => .ok (⟨a⟩, ⟨b⟩)
  | _ => .error (.valueError "значения не распаковываются в две части")

/-- The history loop inside `run_update`'s try block: one record per
fetched pair, sourced with the uppercased client name.  A `ValueError`
from the pair unpacking leaves the records appended so far in place and
propagates. -/
def recordHistory (storage : RatesStorage) (client_name : String) :
    Rates → Except PyError Unit × RatesStorage
  | [] => (.ok (), storage)
  | (pair, rate) :: rest =>
    match splitPair pair with
    | .error e => (.error e, storage)
    | .ok ft =>
      recordHistory
        (storage.save_historical_record ft.1 ft.2 rate (upperString client_name))
        client_name rest

/-- The per-source loop of `RatesUpdater.run_update`.  `clients` models
`self.clients` (in the source, the fixed dict of the CoinGecko and
ExchangeRate-API clients) with each client's `fetch_rates` outcome;
an unknown name is skipped with a warning; `ApiRequestError` is caught
and the loop continues; any other exception propagates with the storage
mutated so far. -/
def run_update_go (clients : List (String × Except PyError Rates)) :
    List String → Rates → RatesStorage → Except PyError Rates × RatesStorage
  | [], all_rates, storage => (.ok all_rates, storage)
  | client_name :: rest, all_rates, storage =>
    match dictGet clients client_name with
    | none => run_update_go clients rest all_rates storage
    | some fetch =>
      match fetch with
      | .error e =>
        if e.isApiRequestError then run_update_go clients rest all_rates storage
        else (.error e, storage)
      | .ok rates =>
        let all_rates := dictUpdate all_rates rates
        match recordHistory storage client_name rates with
        | (.error e, storage) => (.error e, storage)
        | (.ok _, storage) => run_update_go clients rest all_rates storage

/-- `RatesUpdater.run_update`: the working set is the single named source
when the argument is truthy, else every configured source; the snapshot is
written only when the accumulated mapping is non-empty. -/
def run_update (clients : List (String × Except PyError Rates))
    (source : Option String) (storage : RatesStorage) :
    Except PyError Rates × RatesStorage :=
  let sources_to_update :=
    match source with
    | some s => if s = "" then clients.map Prod.fst else [s]
    | none => clients.map Prod.fst
  match run_update_go clients sources_to_update [] storage with
  | (.error e, storage) => (.error e, storage)
  | (.ok all_rates, storage) =>
    if all_rates.isEmpty then (.ok all_rates, storage)
    else (.ok all_rates, storage.save_current_rates all_rates "ParserService")

/-- Modelled from the spec: the fields of the missing
`parser_service/config.py` consumed by `ExchangeRateApiClient.fetch_rates`
(spec sections 4.1 and 6: API key, responsible currency codes, base
currency).  An unset key is the empty string, which is falsy in Python. -/
structure ParserConfig where
  EXCHANGERATE_API_KEY : String
  FIAT_CURRENCIES : List String
  BASE_CURRENCY : String
  deriving DecidableEq

/-- Shallow model of the parsed JSON body of the ExchangeRate-API `latest`
endpoint, as read by `fetch_rates` (`result`, `error-type`,
`conversion_rates`). -/
structure ExchangeRateApiResponse where
  result : String
  error_type : String
  conversion_rates : List (String × ℚ)
  deriving DecidableEq

/-- `ExchangeRateApiClient.fetch_rates`; the `_make_request` network call
is abstracted by its outcome `response` (an `ApiRequestError` for network,
status or JSON-parse failures).  With no API key configured the method
logs a warning and returns an empty mapping without touching the
network. -/
def ExchangeRateApiClient.fetch_rates (config : ParserConfig)
    (response : Except PyError ExchangeRateApiResponse) :
    Except PyError Rates :=
  if config.EXCHANGERATE_API_KEY = "" then .ok []
  else
    match response with
    | .error e => .error e
    | .ok data =>
      if data.result ≠ "success" then
        .error (.apiRequestError ("Ошибка API: " ++ data.error_type))
      else
        .ok (config.FIAT_CURRENCIES.foldl
          (fun rates currency =>
            match dictGet data.conversion_rates currency with
            | some r => rates ++ [(currency ++ "_" ++ config.BASE_CURRENCY, r)]
            | none => rates) [])

/-- Whether a modelled fetch outcome is a raised `ApiRequestError`. -/
def fetchFails : Except PyError Rates → Bool
  | .error e => e.isApiRequestError
  | .ok _ => false

/-- C1: on a wallet holding 2 BTC, selling 5 BTC leaves the in-memory and
persisted balance unchanged, but the failure is a plain
`ValueError("Баланс не может быть отрицательным")` raised by the balance
setter after `withdraw` merely prints an error — not the claimed
`InsufficientFunds(available = 2, required = 5)`. -/
theorem sell_overdraft_raises_plain_value_error :
    sell_currency (fun _ _ => none)
        [{ user_id := 1, wallets := [("BTC", { currency_code := "BTC", balance := 2 })] }]
        1 "BTC" 5
      = (.error (.valueError "Баланс не может быть отрицательным"),
         [{ user_id := 1, wallets := [("BTC", { currency_code := "BTC", balance := 2 })] }]) := by
  have hup : upperString "BTC" = "BTC" := by decide
  norm_num [sell_currency, validate_amount, get_user_portfolio, findPortfolio,
            Portfolio.get_wallet, dictGet, hup, Wallet.withdraw, Wallet.setBalance,
            save_portfolio, dictInsert]

/-- C2: buying 0.5 BTC while the rate service returns 59337.21 yields a
result whose `rate` is present but whose `estimated_cost` is `none`:
`buy_currency` initialises `estimated_cost = None` and never assigns it,
so the cost estimate is absent even when the rate is available. -/
theorem buy_estimated_cost_always_absent :
    (buy_currency (fun _ _ => some 59337.21) [] 1 "BTC" (1/2)).1
      = .ok { currency := "BTC", amount := 1/2, rate := some 59337.21,
              estimated_cost := none, old_balance := 0, new_balance := 1/2 } := by
  have hup : upperString "BTC" = "BTC" := by decide
  norm_num [buy_currency, validate_amount, get_user_portfolio, findPortfolio,
            Portfolio.get_wallet, Portfolio.add_currency, dictGet, dictInsert, hup,
            Wallet.deposit, Wallet.setBalance, Wallet.init, save_portfolio]

/-- C4: "ZZZ" is not in the currency registry (`get_currency` raises
`CurrencyNotFoundError` for it), yet `buy_currency` happily creates a ZZZ
wallet and deposits into it, and `sell_currency` debits it — neither
operation consults the registry, so no `CurrencyNotFound` rejection
happens at the boundary. -/
theorem buy_sell_accept_unregistered_currency :
    get_currency "ZZZ" = .error (.currencyNotFound "ZZZ")
    ∧ buy_currency (fun _ _ => none) [] 7 "ZZZ" 5
        = (.ok { currency := "ZZZ", amount := 5, rate := none, estimated_cost := none,
                 old_balance := 0, new_balance := 5 },
           [{ user_id := 7, wallets := [("ZZZ", { currency_code := "ZZZ", balance := 5 })] }])
    ∧ sell_currency (fun _ _ => none)
          [{ user_id := 7, wallets := [("ZZZ", { currency_code := "ZZZ", balance := 5 })] }]
          7 "ZZZ" 5
        = (.ok { currency := "ZZZ", amount := 5, rate := none, estimated_revenue := none,
                 old_balance := 5, new_balance := 0 },
           [{ user_id := 7, wallets := [("ZZZ", { currency_code := "ZZZ", balance := 0 })] }]) := by
  have hup : upperString "ZZZ" = "ZZZ" := by decide
  refine ⟨by decide, ?_, ?_⟩
  · norm_num [buy_currency, validate_amount, get_user_portfolio, findPortfolio,
              Portfolio.get_wallet, Portfolio.add_currency, dictGet, dictInsert, hup,
              Wallet.deposit, Wallet.setBalance, Wallet.init, save_portfolio]
  · norm_num [sell_currency, validate_amount, get_user_portfolio, findPortfolio,
              Portfolio.get_wallet, dictGet, dictInsert, hup,
              Wallet.withdraw, Wallet.setBalance, save_portfolio]

/-- C7: for any amount ≤ 0, `buy_currency` and `sell_currency` raise the
InvalidAmount rejection (`ValueError("Сумма должна быть положительной")`)
at the precondition check, before the portfolio is loaded or created:
the store is returned exactly as it was, so nothing is mutated or
persisted. -/
theorem nonpositive_amount_rejected_before_mutation
    (rate_service : String → String → Option ℚ) (store : PortfolioStore)
    (user_id : Int) (currency_code : String) (amount : ℚ) (h : amount ≤ 0) :
    buy_currency rate_service store user_id currency_code amount
      = (.error (.valueError "Сумма должна быть положительной"), store)
    ∧ sell_currency rate_service store user_id currency_code amount
      = (.error (.valueError "Сумма должна быть положительной"), store) := by
  have hv : validate_amount amount = false := by
    simp [validate_amount, not_lt.mpr h]
  exact ⟨by simp [buy_currency, hv], by simp [sell_currency, hv]⟩

/-- Witness for C7 at `amount = 0`. -/
theorem nonpositive_amount_rejected_before_mutation_witness :
    (0 : ℚ) ≤ 0
    ∧ (buy_currency (fun _ _ => none) [] 1 "BTC" 0
         = (.error (.valueError "Сумма должна быть положительной"), [])
       ∧ sell_currency (fun _ _ => none) [] 1 "BTC" 0
         = (.error (.valueError "Сумма должна быть положительной"), [])) :=
  ⟨le_refl 0,
   nonpositive_amount_rejected_before_mutation (fun _ _ => none) [] 1 "BTC" 0 (le_refl 0)⟩

/-- C8: when the fiat provider's API key is not configured,
`ExchangeRateApiClient.fetch_rates` returns the empty mapping (after a
warning) whatever the network would have answered — it never raises, so a
missing credential cannot block sibling sources. -/
theorem fetch_rates_missing_key_returns_empty (config : ParserConfig)
    (response : Except PyError ExchangeRateApiResponse)
    (h : config.EXCHANGERATE_API_KEY = "") :
    ExchangeRateApiClient.fetch_rates config response = .ok [] := by
  simp [ExchangeRateApiClient.fetch_rates, h]

/-- Witness for C8: an unset key with a failing network outcome. -/
theorem fetch_rates_missing_key_returns_empty_witness :
    (ParserConfig.mk "" ["EUR", "GBP"] "USD").EXCHANGERATE_API_KEY = ""
    ∧ ExchangeRateApiClient.fetch_rates (ParserConfig.mk "" ["EUR", "GBP"] "USD")
        (.error (.apiRequestError "Сетевая ошибка")) = .ok [] :=
  ⟨rfl,
   fetch_rates_missing_key_returns_empty (ParserConfig.mk "" ["EUR", "GBP"] "USD")
     (.error (.apiRequestError "Сетевая ошибка")) rfl⟩

/-- C9: the non-negativity invariant lives only in the balance setter:
`Wallet.from_dict` goes straight through `__init__`, which assigns the
balance field directly, so any negative input yields a wallet with that
negative balance and no exception, while `setBalance` rejects the same
value with `ValueError`. -/
theorem wallet_constructor_skips_balance_validation
    (code : String) (b : ℚ) (w : Wallet) (h : b < 0) :
    Wallet.from_dict code b = Wallet.init code b
    ∧ (Wallet.from_dict code b).balance = b
    ∧ w.setBalance b = .error (.valueError "Баланс не может быть отрицательным") := by
  refine ⟨rfl, rfl, ?_⟩
  simp [Wallet.setBalance, h]

/-- Witness for C9 at balance −5. -/
theorem wallet_constructor_skips_balance_validation_witness :
    (-5 : ℚ) < 0
    ∧ (Wallet.from_dict "BTC" (-5) = Wallet.init "BTC" (-5)
       ∧ (Wallet.from_dict "BTC" (-5)).balance = -5
       ∧ (Wallet.init "USD" 3).setBalance (-5)
           = .error (.valueError "Баланс не может быть отрицательным")) :=
  ⟨by norm_num,
   wallet_constructor_skips_balance_validation "BTC" (-5) (Wallet.init "USD" 3)
     (by norm_num)⟩

/-- C10: a wallet whose pair key is absent from the `exchange_rates`
argument is valued with the hard-coded demo rate when the pair is one of
BTC_USD (59337.21), EUR_USD (1.0786), RUB_USD (0.01016), ETH_USD (3720.00),
and contributes 0 for any other missing pair; `get_total_value` returns a
bare number, with no indication that a fabricated or missing rate was
used. -/
theorem get_total_value_demo_rate_fallback (user_id : Int) (base code : String)
    (w : Wallet) (exchange_rates : List (String × ℚ))
    (hne : code ≠ base)
    (habs : dictGet exchange_rates (code ++ "_" ++ base) = none) :
    Portfolio.get_total_value { user_id := user_id, wallets := [(code, w)] }
        base exchange_rates
      = w.balance * ((dictGet demo_rates (code ++ "_" ++ base)).getD 0)
    ∧ dictGet demo_rates "BTC_USD" = some 59337.21
    ∧ dictGet demo_rates "EUR_USD" = some 1.0786
    ∧ dictGet demo_rates "RUB_USD" = some 0.01016
    ∧ dictGet demo_rates "ETH_USD" = some 3720.00
    ∧ demo_rates.map Prod.fst = ["BTC_USD", "EUR_USD", "RUB_USD", "ETH_USD"] := by
  refine ⟨?_, by simp [demo_rates, dictGet], by simp [demo_rates, dictGet],
          by simp [demo_rates, dictGet], by simp [demo_rates, dictGet],
          by simp [demo_rates]⟩
  simp only [Portfolio.get_total_value, List.foldl, walletContribution, if_neg hne, habs]
  cases h : dictGet demo_rates (code ++ "_" ++ base) <;> simp [h]

/-- Witness for C10: an XRP wallet with no available rate contributes 0. -/
theorem get_total_value_demo_rate_fallback_witness :
    ("XRP" : String) ≠ "USD"
    ∧ dictGet ([("BTC_USD", (59337.21 : ℚ))]) ("XRP" ++ "_" ++ "USD") = none
    ∧ (Portfolio.get_total_value
         { user_id := 1, wallets := [("XRP", { currency_code := "XRP", balance := 10 })] }
         "USD" [("BTC_USD", (59337.21 : ℚ))]
       = (10 : ℚ) * ((dictGet demo_rates ("XRP" ++ "_" ++ "USD")).getD 0)
       ∧ dictGet demo_rates "BTC_USD" = some 59337.21
       ∧ dictGet demo_rates "EUR_USD" = some 1.0786
       ∧ dictGet demo_rates "RUB_USD" = some 0.01016
       ∧ dictGet demo_rates "ETH_USD" = some 3720.00
       ∧ demo_rates.map Prod.fst = ["BTC_USD", "EUR_USD", "RUB_USD", "ETH_USD"]) :=
  ⟨by decide, by decide,
   get_total_value_demo_rate_fallback 1 "USD" "XRP"
     { currency_code := "XRP", balance := 10 } [("BTC_USD", (59337.21 : ℚ))]
     (by decide) (by decide)⟩


theorem dictGet_dictInsert_self {α : Type} (d : List (String × α)) (k : String) (v : α) :
    dictGet (dictInsert d k v) k = some v := by
  induction d with
  | nil => simp [dictInsert, dictGet]
  | cons kv rest ih =>
    obtain ⟨k', v'⟩ := kv
    by_cases h : k' = k <;> simp [dictInsert, dictGet, h, ih]

theorem findPortfolio_eq_user_id (store : PortfolioStore) (uid : Int) (p : Portfolio)
    (h : findPortfolio store uid = some p) : p.user_id = uid := by
  induction store with
  | nil => simp [findPortfolio] at h
  | cons q rest ih =>
    by_cases hq : q.user_id = uid
    · simp [findPortfolio, hq] at h
      subst h; exact hq
    · simp [findPortfolio, hq] at h
      exact ih h

theorem findPortfolio_save_portfolio_self (store : PortfolioStore) (p : Portfolio) :
    findPortfolio (save_portfolio store p) p.user_id = some p := by
  induction store with
  | nil => simp [save_portfolio, findPortfolio]
  | cons q rest ih =>
    by_cases hq : q.user_id = p.user_id
    · simp [save_portfolio, hq, findPortfolio]
    · simp [save_portfolio, hq, findPortfolio, ih]


theorem buy_on_zero_balance (rs : String → String → Option ℚ) (store : PortfolioStore)
    (uid : Int) (cc : String) (amount : ℚ) (hamt : 0 < amount)
    (hcode : upperString cc = cc) (hpre : walletBalance store uid cc = 0) :
    ∃ p2 w1,
      exceptIsOk (buy_currency rs store uid cc amount).1 = true
      ∧ findPortfolio (buy_currency rs store uid cc amount).2 uid = some p2
      ∧ Portfolio.get_wallet p2 cc = some w1
      ∧ w1.balance = amount := by
  have hval : validate_amount amount = true := by
    simp [validate_amount, hamt]
  have hdep : ¬ amount ≤ 0 := not_le.mpr hamt
  have hns : ¬ amount < 0 := by linarith
  cases hfind : findPortfolio store uid with
  | none =>
    refine ⟨{ user_id := uid,
              wallets := [(cc, { currency_code := cc, balance := amount })] },
            { currency_code := cc, balance := amount }, ?_, ?_, ?_, ?_⟩
    · simp [buy_currency, hval, get_user_portfolio, hfind, hcode, dictGet,
            Portfolio.add_currency, Portfolio.get_wallet, Wallet.deposit, hdep,
            Wallet.setBalance, Wallet.init, dictInsert, exceptIsOk, hns]
    · simp [buy_currency, hval, get_user_portfolio, hfind, hcode, dictGet,
            Portfolio.add_currency, Portfolio.get_wallet, Wallet.deposit, hdep,
            Wallet.setBalance, Wallet.init, dictInsert, hns]
      exact findPortfolio_save_portfolio_self _ _
    · simp [Portfolio.get_wallet, hcode, dictGet]
    · simp
  | some p0 =>
    have huid := findPortfolio_eq_user_id store uid p0 hfind
    subst huid
    cases hw : dictGet p0.wallets cc with
    | none =>
      refine ⟨{ user_id := p0.user_id,
                wallets := dictInsert (dictInsert p0.wallets cc (Wallet.init cc 0)) cc
                  { currency_code := cc, balance := amount } },
              { currency_code := cc, balance := amount }, ?_, ?_, ?_, ?_⟩
      · simp [buy_currency, hval, get_user_portfolio, hfind, hcode, hw,
              Portfolio.add_currency, Portfolio.get_wallet, Wallet.deposit, hdep,
              Wallet.setBalance, Wallet.init, dictGet_dictInsert_self, hns, exceptIsOk]
      · simp [buy_currency, hval, get_user_portfolio, hfind, hcode, hw,
              Portfolio.add_currency, Portfolio.get_wallet, Wallet.deposit, hdep,
              Wallet.setBalance, Wallet.init, dictGet_dictInsert_self, hns]
        exact findPortfolio_save_portfolio_self _ _
      · simp [Portfolio.get_wallet, hcode, dictGet_dictInsert_self]
      · simp
    | some w =>
      have hbal : w.balance = 0 := by
        simpa [walletBalance, hfind, Portfolio.get_wallet, hcode, hw] using hpre
      refine ⟨{ user_id := p0.user_id,
                wallets := dictInsert p0.wallets cc
                  { currency_code := w.currency_code, balance := amount } },
              { currency_code := w.currency_code, balance := amount }, ?_, ?_, ?_, ?_⟩
      · simp [buy_currency, hval, get_user_portfolio, hfind, hcode, hw,
              Portfolio.get_wallet, Wallet.deposit, hdep, hbal,
              Wallet.setBalance, hns, exceptIsOk]
      · simp [buy_currency, hval, get_user_portfolio, hfind, hcode, hw,
              Portfolio.get_wallet, Wallet.deposit, hdep, hbal,
              Wallet.setBalance, hns]
        exact findPortfolio_save_portfolio_self _ _
      · simp [Portfolio.get_wallet, hcode, dictGet_dictInsert_self]
      · simp

theorem walletBalance_after_insert (store : PortfolioStore) (p : Portfolio)
    (cc : String) (w' : Wallet) (hcode : upperString cc = cc) :
    walletBalance (save_portfolio store
        { user_id := p.user_id, wallets := dictInsert p.wallets cc w' })
      p.user_id cc = w'.balance := by
  have h := findPortfolio_save_portfolio_self store
    { user_id := p.user_id, wallets := dictInsert p.wallets cc w' }
  simp [walletBalance, h, Portfolio.get_wallet, hcode, dictGet_dictInsert_self]

theorem sell_entire_balance (rs : String → String → Option ℚ) (store : PortfolioStore)
    (uid : Int) (cc : String) (amount : ℚ) (p : Portfolio) (w : Wallet)
    (hamt : 0 < amount) (hcode : upperString cc = cc)
    (hfind : findPortfolio store uid = some p)
    (hw : Portfolio.get_wallet p cc = some w) (hbal : w.balance = amount) :
    exceptIsOk (sell_currency rs store uid cc amount).1 = true
    ∧ walletBalance (sell_currency rs store uid cc amount).2 uid cc = 0 := by
  have hval : validate_amount amount = true := by simp [validate_amount, hamt]
  have hdep : ¬ amount ≤ 0 := not_le.mpr hamt
  have huid := findPortfolio_eq_user_id store uid p hfind
  subst huid
  constructor
  · simp [sell_currency, hval, get_user_portfolio, hfind, hcode, hw, Wallet.withdraw,
          hdep, Wallet.setBalance, hbal, exceptIsOk]
  · have hwb := walletBalance_after_insert store p cc
      { currency_code := w.currency_code, balance := 0 } hcode
    simp [sell_currency, hval, get_user_portfolio, hfind, hcode, hw, Wallet.withdraw,
          hdep, Wallet.setBalance, hbal]
    simpa using hwb

/-- C3: for any positive amount and any user whose store holds no wallet
(or a zero-balance wallet) for the currency, `buy_currency` followed by
`sell_currency` of the same amount both succeed and return the persisted
wallet balance to exactly its pre-buy value. -/
theorem buy_then_sell_round_trip (rate_service : String → String → Option ℚ)
    (store : PortfolioStore) (user_id : Int) (currency_code : String) (amount : ℚ)
    (hamt : 0 < amount) (hcode : upperString currency_code = currency_code)
    (hpre : walletBalance store user_id currency_code = 0) :
    exceptIsOk (buy_currency rate_service store user_id currency_code amount).1 = true
    ∧ exceptIsOk (sell_currency rate_service
        (buy_currency rate_service store user_id currency_code amount).2
        user_id currency_code amount).1 = true
    ∧ walletBalance (sell_currency rate_service
        (buy_currency rate_service store user_id currency_code amount).2
        user_id currency_code amount).2 user_id currency_code
      = walletBalance store user_id currency_code := by
  obtain ⟨p2, w1, hok, hfind2, hw2, hbal2⟩ :=
    buy_on_zero_balance rate_service store user_id currency_code amount hamt hcode hpre
  obtain ⟨sok, sbal⟩ :=
    sell_entire_balance rate_service _ user_id currency_code amount p2 w1
      hamt hcode hfind2 hw2 hbal2
  exact ⟨hok, sok, sbal.trans hpre.symm⟩

/-- Witness for C3: buying then selling 1 BTC starting from an empty
store. -/
theorem buy_then_sell_round_trip_witness :
    (0:ℚ) < 1 ∧ upperString "BTC" = "BTC" ∧ walletBalance [] 1 "BTC" = 0
    ∧ (exceptIsOk (buy_currency (fun _ _ => none) [] 1 "BTC" 1).1 = true
       ∧ exceptIsOk (sell_currency (fun _ _ => none)
           (buy_currency (fun _ _ => none) [] 1 "BTC" 1).2 1 "BTC" 1).1 = true
       ∧ walletBalance (sell_currency (fun _ _ => none)
           (buy_currency (fun _ _ => none) [] 1 "BTC" 1).2 1 "BTC" 1).2 1 "BTC"
         = walletBalance [] 1 "BTC") :=
  ⟨by norm_num, by decide, by rfl,
   buy_then_sell_round_trip (fun _ _ => none) [] 1 "BTC" 1
     (by norm_num) (by decide) (by rfl)⟩

theorem dictGet_mem {α : Type} (d : List (String × α)) (k : String) (v : α)
    (h : dictGet d k = some v) : (k, v) ∈ d := by
  induction d with
  | nil => simp [dictGet] at h
  | cons kv rest ih =>
    obtain ⟨k', v'⟩ := kv
    by_cases hk : k' = k
    · subst hk
      simp [dictGet] at h
      subst h
      exact List.mem_cons_self _ _
    · simp [dictGet, hk] at h
      exact List.mem_cons_of_mem _ (ih h)

theorem dictGet_append_of_none {α : Type} (a b : List (String × α)) (k : String)
    (h : dictGet a k = none) : dictGet (a ++ b) k = dictGet b k := by
  induction a with
  | nil => simp
  | cons kv rest ih =>
    obtain ⟨k', v'⟩ := kv
    by_cases hk : k' = k
    · simp [dictGet, hk] at h
    · simp [dictGet, hk] at h ⊢
      exact ih h

theorem dictInsert_of_absent {α : Type} (d : List (String × α)) (k : String) (v : α)
    (h : dictGet d k = none) : dictInsert d k v = d ++ [(k, v)] := by
  induction d with
  | nil => simp [dictInsert]
  | cons kv rest ih =>
    obtain ⟨k', v'⟩ := kv
    by_cases hk : k' = k
    · simp [dictGet, hk] at h
    · simp [dictGet, hk] at h
      simp [dictInsert, hk, ih h]

theorem dictUpdate_acc (entries : Rates) : ∀ (acc : Rates),
    (entries.map Prod.fst).Nodup →
    (∀ k ∈ entries.map Prod.fst, dictGet acc k = none) →
    dictUpdate acc entries = acc ++ entries := by
  induction entries with
  | nil =>
    intro acc _ _
    simp [dictUpdate]
  | cons kv rest ih =>
    intro acc hnd hab
    obtain ⟨k, v⟩ := kv
    have hk : dictGet acc k = none := hab k (by simp)
    have h1 : dictUpdate acc ((k, v) :: rest) = dictUpdate (dictInsert acc k v) rest := rfl
    simp only [List.map_cons, List.nodup_cons, List.mem_map] at hnd
    have hab' : ∀ k' ∈ rest.map Prod.fst, dictGet (acc ++ [(k, v)]) k' = none := by
      intro k' hk'
      have hne : ¬ k = k' := by
        rintro rfl
        exact hnd.1 (by simpa using hk')
      rw [dictGet_append_of_none _ _ _ (hab k' (by simp [hk']))]
      simp [dictGet, hne]
    rw [h1, dictInsert_of_absent acc k v hk, ih (acc ++ [(k, v)]) hnd.2 hab']
    simp

theorem dictUpdate_nil (entries : Rates) (hnd : (entries.map Prod.fst).Nodup) :
    dictUpdate [] entries = entries := by
  simpa using dictUpdate_acc entries [] hnd (by simp [dictGet])

theorem recordHistory_ok (n : String) :
    ∀ (rates : Rates) (storage : RatesStorage),
      (∀ pr ∈ rates, exceptIsOk (splitPair pr.1) = true) →
      ∃ s', recordHistory storage n rates = (.ok (), s') ∧ s'.current = storage.current
  | [], storage, _ => ⟨storage, rfl, rfl⟩
  | (pair, rate) :: rest, storage, h => by
    have h1 := h (pair, rate) (List.mem_cons_self _ _)
    cases hsp : splitPair pair with
    | error e =>
      rw [hsp] at h1
      simp [exceptIsOk] at h1
    | ok ft =>
      obtain ⟨s', hs', hc⟩ :=
        recordHistory_ok n rest
          (storage.save_historical_record ft.1 ft.2 rate (upperString n))
          (fun pr hpr => h pr (List.mem_cons_of_mem _ hpr))
      exact ⟨s', by simp [recordHistory, hsp, hs'],
        by rw [hc]; rfl⟩

/-- C5: with a working set of two providers where one raises
`ApiRequestError` and the other returns a mapping of pairs (non-empty,
with distinct well-formed pair keys), `run_update` — in either iteration
order — returns exactly the successful provider's pairs and writes them
as the new current snapshot tagged "ParserService"; the failure is
absorbed and no exception escapes. -/
theorem run_update_tolerates_single_source_failure
    (n1 n2 msg : String) (rates : Rates) (storage : RatesStorage)
    (hne : n1 ≠ n2) (hnonempty : rates ≠ [])
    (hnodup : (rates.map Prod.fst).Nodup)
    (hsplit : ∀ pr ∈ rates, exceptIsOk (splitPair pr.1) = true) :
    ((run_update [(n1, .error (.apiRequestError msg)), (n2, .ok rates)] none storage).1
        = .ok rates
      ∧ (run_update [(n1, .error (.apiRequestError msg)), (n2, .ok rates)]
          none storage).2.current = some (rates, "ParserService"))
    ∧ ((run_update [(n2, .ok rates), (n1, .error (.apiRequestError msg))] none storage).1
        = .ok rates
      ∧ (run_update [(n2, .ok rates), (n1, .error (.apiRequestError msg))]
          none storage).2.current = some (rates, "ParserService")) := by
  obtain ⟨s', hrec, hcur⟩ := recordHistory_ok n2 rates storage hsplit
  have hupd : dictUpdate [] rates = rates := dictUpdate_nil rates hnodup
  have hemp : rates.isEmpty = false := by
    cases rates with
    | nil => exact absurd rfl hnonempty
    | cons a l => rfl
  constructor
  · constructor <;>
      simp [run_update, run_update_go, dictGet, hne, Ne.symm hne,
            PyError.isApiRequestError, hupd, hrec, hemp,
            RatesStorage.save_current_rates]
  · constructor <;>
      simp [run_update, run_update_go, dictGet, hne, Ne.symm hne,
            PyError.isApiRequestError, hupd, hrec, hemp,
            RatesStorage.save_current_rates]

/-- The per-source loop when every configured client fails with
`ApiRequestError`: nothing accumulates and the storage is untouched. -/
theorem run_update_go_all_fail (clients : List (String × Except PyError Rates))
    (hfail : ∀ c ∈ clients, fetchFails c.2 = true) :
    ∀ (names : List String) (all_rates : Rates) (storage : RatesStorage),
      run_update_go clients names all_rates storage = (.ok all_rates, storage)
  | [], all_rates, storage => rfl
  | n :: rest, all_rates, storage => by
    cases hget : dictGet clients n with
    | none =>
      simp [run_update_go, hget, run_update_go_all_fail clients hfail rest]
    | some fetch =>
      have hf : fetchFails fetch = true :=
        hfail (n, fetch) (dictGet_mem clients n fetch hget)
      cases fetch with
      | ok r => simp [fetchFails] at hf
      | error e =>
        simp only [fetchFails] at hf
        simp [run_update_go, hget, hf, run_update_go_all_fail clients hfail rest]

/-- C6: when `run_update` accumulates nothing — every source in the
working set raises `ApiRequestError`, or the single named source is
unknown (skipped with a warning) — it returns the empty mapping without
raising, performs no snapshot write, and leaves the storage (current
snapshot and history) exactly as it was. -/
theorem run_update_empty_accumulation_writes_nothing
    (clients : List (String × Except PyError Rates)) (storage : RatesStorage)
    (s : String) :
    ((∀ c ∈ clients, fetchFails c.2 = true) →
       run_update clients none storage = (.ok [], storage))
    ∧ (s ≠ "" → dictGet clients s = none →
       run_update clients (some s) storage = (.ok [], storage)) := by
  constructor
  · intro hfail
    simp [run_update, run_update_go_all_fail clients hfail]
  · intro hs hget
    simp [run_update, hs, run_update_go, hget]

/-- Witness for C5: the fiat source fails while the crypto source returns
three pairs. -/
theorem run_update_tolerates_single_source_failure_witness :
    ("exchangerate" : String) ≠ "coingecko"
    ∧ ([("BTC_USD", (59337.21 : ℚ)), ("ETH_USD", 3720), ("LTC_USD", 70)] : Rates) ≠ []
    ∧ (([("BTC_USD", (59337.21 : ℚ)), ("ETH_USD", 3720), ("LTC_USD", 70)] : Rates).map
         Prod.fst).Nodup
    ∧ (∀ pr ∈ ([("BTC_USD", (59337.21 : ℚ)), ("ETH_USD", 3720), ("LTC_USD", 70)] : Rates),
         exceptIsOk (splitPair pr.1) = true)
    ∧ (((run_update [("exchangerate", .error (.apiRequestError "Сетевая ошибка")),
            ("coingecko", .ok [("BTC_USD", (59337.21 : ℚ)), ("ETH_USD", 3720), ("LTC_USD", 70)])]
            none { current := none, history := [] }).1
          = .ok [("BTC_USD", (59337.21 : ℚ)), ("ETH_USD", 3720), ("LTC_USD", 70)]
        ∧ (run_update [("exchangerate", .error (.apiRequestError "Сетевая ошибка")),
            ("coingecko", .ok [("BTC_USD", (59337.21 : ℚ)), ("ETH_USD", 3720), ("LTC_USD", 70)])]
            none { current := none, history := [] }).2.current
          = some ([("BTC_USD", (59337.21 : ℚ)), ("ETH_USD", 3720), ("LTC_USD", 70)],
                  "ParserService"))
       ∧ ((run_update [("coingecko", .ok [("BTC_USD", (59337.21 : ℚ)), ("ETH_USD", 3720),
              ("LTC_USD", 70)]), ("exchangerate", .error (.apiRequestError "Сетевая ошибка"))]
            none { current := none, history := [] }).1
          = .ok [("BTC_USD", (59337.21 : ℚ)), ("ETH_USD", 3720), ("LTC_USD", 70)]
        ∧ (run_update [("coingecko", .ok [("BTC_USD", (59337.21 : ℚ)), ("ETH_USD", 3720),
              ("LTC_USD", 70)]), ("exchangerate", .error (.apiRequestError "Сетевая ошибка"))]
            none { current := none, history := [] }).2.current
          = some ([("BTC_USD", (59337.21 : ℚ)), ("ETH_USD", 3720), ("LTC_USD", 70)],
                  "ParserService"))) :=
  ⟨by decide, by simp, by decide, by decide,
   run_update_tolerates_single_source_failure "exchangerate" "coingecko" "Сетевая ошибка"
     [("BTC_USD", (59337.21 : ℚ)), ("ETH_USD", 3720), ("LTC_USD", 70)]
     { current := none, history := [] }
     (by decide) (by simp) (by decide) (by decide)⟩

/-- Witness for C6: both sources fail, and separately an unknown single
source name, over a storage holding a previous snapshot. -/
theorem run_update_empty_accumulation_writes_nothing_witness :
    (∀ c ∈ ([("coingecko", .error (.apiRequestError "a")),
             ("exchangerate", .error (.apiRequestError "b"))] :
            List (String × Except PyError Rates)), fetchFails c.2 = true)
    ∧ ("binance" : String) ≠ ""
    ∧ dictGet ([("coingecko", .error (.apiRequestError "a")),
                ("exchangerate", .error (.apiRequestError "b"))] :
               List (String × Except PyError Rates)) "binance" = none
    ∧ run_update [("coingecko", .error (.apiRequestError "a")),
                  ("exchangerate", .error (.apiRequestError "b"))] none
        { current := some ([("BTC_USD", (1 : ℚ))], "old"), history := [] }
      = (.ok [], { current := some ([("BTC_USD", (1 : ℚ))], "old"), history := [] })
    ∧ run_update [("coingecko", .error (.apiRequestError "a")),
                  ("exchangerate", .error (.apiRequestError "b"))] (some "binance")
        { current := some ([("BTC_USD", (1 : ℚ))], "old"), history := [] }
      = (.ok [], { current := some ([("BTC_USD", (1 : ℚ))], "old"), history := [] }) :=
  ⟨by decide, by decide, by decide,
   (run_update_empty_accumulation_writes_nothing
      [("coingecko", .error (.apiRequestError "a")),
       ("exchangerate", .error (.apiRequestError "b"))]
      { current := some ([("BTC_USD", (1 : ℚ))], "old"), history := [] }
      "binance").1 (by decide),
   (run_update_empty_accumulation_writes_nothing
      [("coingecko", .error (.apiRequestError "a")),
       ("exchangerate", .error (.apiRequestError "b"))]
      { current := some ([("BTC_USD", (1 : ℚ))], "old"), history := [] }
      "binance").2 (by decide) (by decide)⟩

end ValutatradeHub
